import Mathlib

/-!
Shallow embedding of the Student Progress & Adaptive Selection Engine of the
reinforcement-learning-tutorial-system repository
(src/complete_assignment_demo.py and src/professional_fastapi_app.py).

Python dicts are modelled as insertion-ordered association lists; Python
floats are modelled as rationals; random draws (random.choices, random.choice)
are modelled by passing the draw explicitly: a rational r walking the
cumulative weights for weighted choices, a natural-number index for uniform
choices over a fixed list.
-/

namespace Tutorial

/-- First-match lookup with default, mirroring Python `dict.get(k, d)`. -/
def dictGet (l : List (String × ℚ)) (k : String) (d : ℚ) : ℚ :=
  match l with
  | [] => d
  | (k₂, v) :: rest => if k₂ = k then v else dictGet rest k d

/-- Python `dict[k] = v`: replace in place if the key exists, else append
(insertion order preserved). -/
def dictSet (l : List (String × ℚ)) (k : String) (v : ℚ) : List (String × ℚ) :=
  match l with
  | [] => [(k, v)]
  | (k₂, v₂) :: rest => if k₂ = k then (k, v) :: rest else (k₂, v₂) :: dictSet rest k v

/-- Mean of the values of a dict, `sum(d.values()) / len(d)`. -/
def meanVals (l : List (String × ℚ)) : ℚ :=
  (l.map Prod.snd).sum / l.length

/-- Difficulty enum of src/complete_assignment_demo.py. -/
inductive Difficulty
  | EASY
  | MEDIUM
  | HARD
deriving DecidableEq, Repr

/-- Python `Difficulty.name`. -/
def Difficulty.name : Difficulty → String
  | .EASY => "EASY"
  | .MEDIUM => "MEDIUM"
  | .HARD => "HARD"

/-- CoordinationMode enum of src/complete_assignment_demo.py. -/
inductive CoordinationMode
  | HIERARCHICAL
  | COLLABORATIVE
  | COMPETITIVE
deriving DecidableEq, Repr

/-- StudentProfile dataclass of src/complete_assignment_demo.py. -/
structure StudentProfile where
  name : String
  student_id : String
  created_at : String
  preferred_topics : List String
  preferred_difficulty : String
  learning_style : String
  overall_performance : ℚ := 1/2
  topic_performance : List (String × ℚ) := []
  difficulty_performance : List (String × ℚ) := []
  total_questions_answered : Nat := 0
  correct_responses : Nat := 0
  detailed_responses : Nat := 0
  session_count : Nat := 0
  total_study_time : ℚ := 0
  strength_areas : List String := []
  improvement_areas : List String := []
  learning_velocity : ℚ := 0
  engagement_score : ℚ := 1/2
deriving DecidableEq, Repr

/-- StudentProgressManager._update_learning_areas: full recomputation of the
strength/improvement sets from the current topic_performance map. -/
def update_learning_areas (profile : StudentProfile) : StudentProfile :=
  let avg := meanVals profile.topic_performance
  { profile with
    strength_areas :=
      (profile.topic_performance.filter (fun x => x.2 > avg + 1/10)).map Prod.fst
    improvement_areas :=
      (profile.topic_performance.filter (fun x => x.2 < avg - 1/10)).map Prod.fst }

/-- StudentProgressManager.update_student_performance, acting on the profile
(the `student_id` dictionary indirection and the unused `session_reward`
argument are dropped). -/
def update_student_performance (topic difficulty : String) (response_quality : ℚ)
    (profile : StudentProfile) : StudentProfile :=
  let overall := profile.overall_performance * (9/10) + response_quality * (1/10)
  let current_topic_perf := dictGet profile.topic_performance topic (1/2)
  let tp := dictSet profile.topic_performance topic
    (current_topic_perf * (4/5) + response_quality * (1/5))
  let current_diff_perf := dictGet profile.difficulty_performance difficulty (1/2)
  let dp := dictSet profile.difficulty_performance difficulty
    (current_diff_perf * (4/5) + response_quality * (1/5))
  let tqa := profile.total_questions_answered + 1
  let correct :=
    if response_quality > 3/5 then profile.correct_responses + 1 else profile.correct_responses
  let detailed :=
    if response_quality > 4/5 then profile.detailed_responses + 1 else profile.detailed_responses
  let engagement_change := (response_quality - 1/2) * (1/10)
  let engagement := max (1/10) (min 1 (profile.engagement_score + engagement_change))
  let velocity := if tqa > 5 then (meanVals tp - 1/2) * 2 else profile.learning_velocity
  update_learning_areas { profile with
    overall_performance := overall
    topic_performance := tp
    difficulty_performance := dp
    total_questions_answered := tqa
    correct_responses := correct
    detailed_responses := detailed
    engagement_score := engagement
    learning_velocity := velocity }

/-- The four topics hard-coded in EnhancedPPOAgent.select_topic and in the
competitive branch of coordinate_agents. -/
def topics : List String := ["mathematics", "science", "programming", "language"]

/-- The per-topic weight computed inside EnhancedPPOAgent.select_topic:
base 1.0, +0.3 (student_preferences_weight) if preferred, +0.4 if an
improvement area, +0.3·(1 − topic_performance.get(topic, 0.5)). -/
def topic_weight (profile : StudentProfile) (topic : String) : ℚ :=
  let base := 1
  let base := if profile.preferred_topics.contains topic then base + 3/10 else base
  let base := if profile.improvement_areas.contains topic then base + 2/5 else base
  base + (1 - dictGet profile.topic_performance topic (1/2)) * (3/10)

/-- random.choices with weights, given the draw as a point t on the cumulative
weight axis: take the first element whose weight bucket contains t (the last
element if t falls past the total). -/
def weightedPick (l : List (String × ℚ)) (t : ℚ) : String :=
  match l with
  | [] => ""
  | [(a, _)] => a
  | (a, w) :: rest => if t < w then a else weightedPick rest (t - w)

/-- EnhancedPPOAgent.select_topic, the random draw passed explicitly. -/
def select_topic (profile : StudentProfile) (t : ℚ) : String :=
  weightedPick (topics.map (fun x => (x, topic_weight profile x))) t

/-- EnhancedDQNAgent.select_difficulty, the random draw passed explicitly as
r on the cumulative axis of the normalized weights: for weights [0.6, 0.4]
a draw r < 3/5 gives the first outcome, otherwise the second; for
weights [0.3, 0.7] a draw r < 3/10 gives the first outcome. -/
def select_difficulty (profile : StudentProfile) (r : ℚ) : Difficulty :=
  let perf := profile.overall_performance
  if perf < 2/5 then
    Difficulty.EASY
  else if perf > 7/10 then
    if r < 3/5 then Difficulty.MEDIUM else Difficulty.HARD
  else
    if r < 3/10 then Difficulty.EASY else Difficulty.MEDIUM

/-- Python str.strip(): drop leading and trailing whitespace (kernel-reducible
characterwise recursion, unlike the builtin String.trim). -/
def pyStrip (s : String) : String :=
  String.mk (((s.data.dropWhile Char.isWhitespace).reverse.dropWhile
    Char.isWhitespace).reverse)

/-- Python str.lower(), characterwise. -/
def pyLower (s : String) : String :=
  String.mk (s.data.map Char.toLower)

/-- The base length reward of CompleteTutorialOrchestrator.evaluate_response:
start at 0.1 and successively raise it at 20, 60 and 120 stripped characters. -/
def base_reward_of_length (L : Nat) : ℚ :=
  let b : ℚ := 1/10
  let b := if L ≥ 20 then 2/5 else b
  let b := if L ≥ 60 then 7/10 else b
  if L ≥ 120 then 1 else b

/-- The difficulty_multiplier dict of evaluate_response. -/
def difficulty_multiplier : Difficulty → ℚ
  | .EASY => 1
  | .MEDIUM => 11/10
  | .HARD => 6/5

/-- The feedback_options lookup of evaluate_response: the first half-open
reward interval, in dict order, that contains the reward ("" if none does,
where the Python generator would raise StopIteration). -/
def feedback_for (reward : ℚ) : String :=
  if 0 ≤ reward ∧ reward < 3/10 then
    "Brief response - try to elaborate more with examples"
  else if 3/10 ≤ reward ∧ reward < 3/5 then
    "Good effort - consider adding more detail and explanation"
  else if 3/5 ≤ reward ∧ reward < 4/5 then
    "Well-developed response - good understanding shown"
  else if 4/5 ≤ reward ∧ reward < 1 then
    "Excellent detailed response - demonstrates deep understanding"
  else if 1 ≤ reward ∧ reward < 2 then
    "Outstanding response with exceptional insight and detail"
  else ""

/-- CompleteTutorialOrchestrator.evaluate_response, restricted to its reward,
feedback and student-profile effects (the orchestrator's interaction_count
and total_reward counters and the two agent-update strings live outside the
StudentProfile and are dropped). Returns (reward, feedback, updated profile). -/
def evaluate_response (user_response : String) (topic : String) (difficulty : Difficulty)
    (profile : StudentProfile) : ℚ × String × StudentProfile :=
  if user_response = "" ∨ ["q", "quit", "exit"].contains (pyLower (pyStrip user_response)) then
    (0, "No response provided", profile)
  else
    let response_length := (pyStrip user_response).length
    let base_reward := base_reward_of_length response_length
    let base_reward :=
      if profile.improvement_areas.contains topic then base_reward * (6/5) else base_reward
    let reward := base_reward * difficulty_multiplier difficulty
    (reward, feedback_for reward,
      update_student_performance topic difficulty.name.toLower reward profile)

/-- CompleteTutorialOrchestrator.coordinate_agents, with the agents'
performance scalars and every random draw passed explicitly: t is the
weighted-topic draw, r the weighted-difficulty draw, iTopic and iDiff the
uniform random.choice indices used by the competitive branch. The two
floating-point performance figures interpolated into the competitive
description strings are omitted. Returns (description, topic, difficulty). -/
def coordinate_agents (mode : CoordinationMode) (profile : StudentProfile)
    (dqn_performance ppo_performance : ℚ) (t r : ℚ) (iTopic iDiff : Nat) :
    String × String × Difficulty :=
  match mode with
  | .HIERARCHICAL =>
    let topic := select_topic profile t
    let difficulty := select_difficulty profile r
    ("Hierarchical: PPO→topic(" ++ topic ++ "), DQN→difficulty(" ++ difficulty.name ++ ")",
      topic, difficulty)
  | .COLLABORATIVE =>
    let topic := select_topic profile t
    let difficulty := select_difficulty profile r
    ("Collaborative: Joint decision for " ++ topic ++ " at " ++ difficulty.name ++ " level",
      topic, difficulty)
  | .COMPETITIVE =>
    if dqn_performance > ppo_performance then
      let topic := topics.getD iTopic "mathematics"
      let difficulty := select_difficulty profile r
      ("Competitive: DQN leads", topic, difficulty)
    else
      let topic := select_topic profile t
      let difficulty := [Difficulty.EASY, Difficulty.MEDIUM, Difficulty.HARD].getD iDiff
        Difficulty.EASY
      ("Competitive: PPO leads", topic, difficulty)

/-- The length-bucket evaluation inside submit_response of
src/professional_fastapi_app.py: raw (unstripped) length, buckets
[0,10), [10,50), [50,100), [100,∞) with rewards 0.1, 0.3, 0.6, 0.8. -/
def submit_response_eval (response : String) : ℚ × String :=
  let response_length := response.length
  if response_length < 10 then
    (1/10, "Brief response - try to elaborate more with examples")
  else if response_length < 50 then
    (3/10, "Good start - consider adding more detail and examples")
  else if response_length < 100 then
    (3/5, "Well-developed response with good explanation")
  else
    (4/5, "Excellent detailed response showing thorough understanding")

/-- The concrete profile of the C1 scenario: overall_performance 0.5, one
topic entry math ↦ 0.5, six questions already answered. -/
def scenario_profile : StudentProfile :=
  { name := "S"
    student_id := "s1"
    created_at := "t0"
    preferred_topics := []
    preferred_difficulty := "medium"
    learning_style := "reading"
    overall_performance := 1/2
    topic_performance := [("math", 1/2)]
    difficulty_performance := []
    total_questions_answered := 6 }

/-- C1: updating the scenario profile (overall 0.5, math ↦ 0.5, six prior
answers) with topic "math", difficulty "medium", quality 0.9 yields
topic_performance math = 0.8·0.5 + 0.2·0.9 = 0.58, overall_performance
= 0.9·0.5 + 0.1·0.9 = 0.54, and, the answered count now being 7 > 5,
learning_velocity is recomputed as (mean of topic_performance − 0.5)·2
= 0.16. -/
theorem c1_scenario_update :
    dictGet (update_student_performance "math" "medium" (9/10)
        scenario_profile).topic_performance "math" (1/2) = 29/50
    ∧ (update_student_performance "math" "medium" (9/10)
        scenario_profile).overall_performance = 27/50
    ∧ (update_student_performance "math" "medium" (9/10)
        scenario_profile).total_questions_answered = 7
    ∧ (update_student_performance "math" "medium" (9/10)
        scenario_profile).learning_velocity
      = (meanVals (update_student_performance "math" "medium" (9/10)
           scenario_profile).topic_performance - 1/2) * 2
    ∧ (update_student_performance "math" "medium" (9/10)
        scenario_profile).learning_velocity = 4/25 := by
  refine ⟨?_, ?_, ?_, ?_, ?_⟩ <;>
    norm_num [update_student_performance, update_learning_areas, dictGet, dictSet,
      meanVals, scenario_profile]

/-- A low-performing profile (overall_performance 0.39) with one preferred
topic that is also an improvement area, used to instantiate universally
quantified theorems at concrete inputs. -/
def profile_low : StudentProfile :=
  { name := "L"
    student_id := "l1"
    created_at := "t0"
    preferred_topics := ["mathematics"]
    preferred_difficulty := "easy"
    learning_style := "visual"
    overall_performance := 39/100
    improvement_areas := ["mathematics"] }

/-- C5: the FastAPI submit_response evaluator puts a 10-character response in
the 10-to-50 bucket (reward 0.3), not the under-10 bucket (reward 0.1); its
buckets are closed below and open above with boundaries at 10, 50 and 100
characters. -/
theorem c5_length_buckets (s : String) (h : s.length = 10) :
    (submit_response_eval s).1 = 3/10
    ∧ (submit_response_eval s).1 ≠ 1/10
    ∧ (∀ u : String, u.length < 10 → (submit_response_eval u).1 = 1/10)
    ∧ (∀ u : String, 10 ≤ u.length → u.length < 50 → (submit_response_eval u).1 = 3/10)
    ∧ (∀ u : String, 50 ≤ u.length → u.length < 100 → (submit_response_eval u).1 = 3/5)
    ∧ (∀ u : String, 100 ≤ u.length → (submit_response_eval u).1 = 4/5) := by
  have k1 : ∀ u : String, u.length < 10 → (submit_response_eval u).1 = 1/10 := by
    intro u hu
    simp [submit_response_eval, hu]
  have k2 : ∀ u : String, 10 ≤ u.length → u.length < 50 → (submit_response_eval u).1 = 3/10 := by
    intro u hu1 hu2
    simp only [submit_response_eval]
    split_ifs <;> first | rfl | omega
  have k3 : ∀ u : String, 50 ≤ u.length → u.length < 100 → (submit_response_eval u).1 = 3/5 := by
    intro u hu1 hu2
    simp only [submit_response_eval]
    split_ifs <;> first | rfl | omega
  have k4 : ∀ u : String, 100 ≤ u.length → (submit_response_eval u).1 = 4/5 := by
    intro u hu
    simp only [submit_response_eval]
    split_ifs <;> first | rfl | omega
  have hs : (submit_response_eval s).1 = 3/10 := k2 s (by omega) (by omega)
  exact ⟨hs, by rw [hs]; norm_num, k1, k2, k3, k4⟩

/-- C5 witness: a concrete 10-character response gets reward 0.3. -/
theorem c5_length_buckets_witness : (submit_response_eval "abcdefghij").1 = 3/10 :=
  (c5_length_buckets "abcdefghij" rfl).1

/-- C6: difficulty selection is a three-band policy on overall_performance
with strict comparisons: below 0.4 always EASY; above 0.7 only MEDIUM (draw
below weight 0.6) or HARD; in the middle band, which includes the boundary
values 0.4 and 0.7, only EASY (draw below weight 0.3) or MEDIUM. -/
theorem c6_difficulty_bands (profile : StudentProfile) (r : ℚ) :
    (profile.overall_performance < 2/5 → select_difficulty profile r = Difficulty.EASY)
    ∧ (profile.overall_performance > 7/10 →
        (r < 3/5 → select_difficulty profile r = Difficulty.MEDIUM)
        ∧ (¬ r < 3/5 → select_difficulty profile r = Difficulty.HARD))
    ∧ (2/5 ≤ profile.overall_performance → profile.overall_performance ≤ 7/10 →
        (r < 3/10 → select_difficulty profile r = Difficulty.EASY)
        ∧ (¬ r < 3/10 → select_difficulty profile r = Difficulty.MEDIUM)) := by
  simp only [select_difficulty]
  refine ⟨fun h1 => ?_, fun h2 => ⟨fun hr => ?_, fun hr => ?_⟩,
    fun h3 h4 => ⟨fun hr => ?_, fun hr => ?_⟩⟩ <;>
    split_ifs <;> first | rfl | linarith

/-- C6 witness: at overall_performance 0.39 the selector returns EASY. -/
theorem c6_difficulty_bands_witness : select_difficulty profile_low (1/2) = Difficulty.EASY :=
  (c6_difficulty_bands profile_low (1/2)).1 (by norm_num [profile_low])

/-- C9: in COMPETITIVE mode, strictly greater DQN performance makes the DQN
agent lead (uniform random topic, DQN difficulty selection), and otherwise
the PPO agent leads (PPO topic selection, uniform random difficulty). -/
theorem c9_competitive_leader (profile : StudentProfile) (dq pp t r : ℚ) (iT iD : Nat) :
    (dq > pp →
      coordinate_agents CoordinationMode.COMPETITIVE profile dq pp t r iT iD
        = ("Competitive: DQN leads", topics.getD iT "mathematics", select_difficulty profile r))
    ∧ (¬ dq > pp →
      coordinate_agents CoordinationMode.COMPETITIVE profile dq pp t r iT iD
        = ("Competitive: PPO leads", select_topic profile t,
            [Difficulty.EASY, Difficulty.MEDIUM, Difficulty.HARD].getD iD Difficulty.EASY)) := by
  constructor <;> intro h <;> simp [coordinate_agents, h]

/-- C9 witness: with DQN performance 1 against PPO performance 0, the DQN
agent leads the competitive round. -/
theorem c9_competitive_leader_witness :
    coordinate_agents CoordinationMode.COMPETITIVE profile_low 1 0 0 0 0 0
      = ("Competitive: DQN leads", topics.getD 0 "mathematics", select_difficulty profile_low 0) :=
  (c9_competitive_leader profile_low 1 0 0 0 0 0).1 (by norm_num)

/-- C10: the HIERARCHICAL and COLLABORATIVE modes produce the same
(topic, difficulty) pair under identical random draws — both take the topic
from PPO topic selection and the difficulty from DQN difficulty selection —
so they differ only in the descriptive string. -/
theorem c10_modes_equivalent (profile : StudentProfile) (dq pp t r : ℚ) (iT iD : Nat) :
    (coordinate_agents CoordinationMode.HIERARCHICAL profile dq pp t r iT iD).2
      = (coordinate_agents CoordinationMode.COLLABORATIVE profile dq pp t r iT iD).2
    ∧ (coordinate_agents CoordinationMode.HIERARCHICAL profile dq pp t r iT iD).2.1
      = select_topic profile t
    ∧ (coordinate_agents CoordinationMode.HIERARCHICAL profile dq pp t r iT iD).2.2
      = select_difficulty profile r := by
  exact ⟨rfl, rfl, rfl⟩

/-- C3: every sentinel response (empty, or stripping and lowercasing to "q",
"quit" or "exit") evaluates to reward 0 with the "No response provided"
label and leaves the StudentProfile unchanged. -/
theorem c3_sentinel_no_update (s topic : String) (d : Difficulty) (profile : StudentProfile)
    (h : s = "" ∨ pyLower (pyStrip s) = "q" ∨ pyLower (pyStrip s) = "quit"
      ∨ pyLower (pyStrip s) = "exit") :
    evaluate_response s topic d profile = (0, "No response provided", profile) := by
  unfold evaluate_response
  rcases h with h | h | h | h <;> simp [h]

/-- C3 witness: the concrete response "quit" returns reward 0, the
"No response provided" label, and the untouched profile. -/
theorem c3_sentinel_no_update_witness :
    evaluate_response "quit" "mathematics" Difficulty.EASY scenario_profile
      = (0, "No response provided", scenario_profile) :=
  c3_sentinel_no_update "quit" "mathematics" Difficulty.EASY scenario_profile
    (Or.inr (Or.inr (Or.inl (by decide))))

/-- C7: with equal topic_performance, a topic that is both preferred and an
improvement area gets a strictly larger selection weight than a topic that is
neither, and every topic whose performance entry is at most 1 has strictly
positive weight. -/
theorem c7_topic_weight_order (profile : StudentProfile) (t₁ t₂ : String)
    (heq : dictGet profile.topic_performance t₁ (1/2)
      = dictGet profile.topic_performance t₂ (1/2))
    (h1p : profile.preferred_topics.contains t₁ = true)
    (h1i : profile.improvement_areas.contains t₁ = true)
    (h2p : profile.preferred_topics.contains t₂ = false)
    (h2i : profile.improvement_areas.contains t₂ = false) :
    topic_weight profile t₂ < topic_weight profile t₁
    ∧ ∀ u : String, dictGet profile.topic_performance u (1/2) ≤ 1 →
        0 < topic_weight profile u := by
  constructor
  · simp only [topic_weight, h1p, h1i, h2p, h2i, heq, if_true, Bool.false_eq_true,
      if_false]
    linarith
  · intro u hu
    simp only [topic_weight]
    split_ifs <;> linarith

/-- C7 witness: in profile_low, "mathematics" (preferred and an improvement
area) outweighs "science" (neither) at the equal default performance 0.5. -/
theorem c7_topic_weight_order_witness :
    topic_weight profile_low "science" < topic_weight profile_low "mathematics" :=
  (c7_topic_weight_order profile_low "mathematics" "science" rfl rfl rfl rfl rfl).1

/-- C8: after every Student State Tracker update, strength_areas is exactly
the set of topics more than 0.1 above the mean of the updated
topic_performance and improvement_areas exactly those more than 0.1 below it,
and both sets are recomputed from scratch: the profile's previous
strength_areas and improvement_areas contents are irrelevant to the result. -/
theorem c8_learning_areas_recomputed (topic difficulty : String) (q : ℚ)
    (profile : StudentProfile) :
    (update_student_performance topic difficulty q profile).strength_areas
      = ((update_student_performance topic difficulty q profile).topic_performance.filter
          (fun x => x.2 > meanVals
            (update_student_performance topic difficulty q profile).topic_performance
              + 1/10)).map Prod.fst
    ∧ (update_student_performance topic difficulty q profile).improvement_areas
      = ((update_student_performance topic difficulty q profile).topic_performance.filter
          (fun x => x.2 < meanVals
            (update_student_performance topic difficulty q profile).topic_performance
              - 1/10)).map Prod.fst
    ∧ ∀ sa ia : List String,
        (update_student_performance topic difficulty q
            { profile with strength_areas := sa, improvement_areas := ia }).strength_areas
          = (update_student_performance topic difficulty q profile).strength_areas
        ∧ (update_student_performance topic difficulty q
            { profile with strength_areas := sa, improvement_areas := ia }).improvement_areas
          = (update_student_performance topic difficulty q profile).improvement_areas :=
  ⟨rfl, rfl, fun _ _ => ⟨rfl, rfl⟩⟩

/-- A 120-character response, long enough for the top length bucket. -/
def long_response : String := String.mk (List.replicate 120 'a')

/-- C4 counterexample: a 120-character response on an improvement-area topic
at HARD difficulty earns reward 1.0·1.2·1.2 = 1.44 > 1, so evaluate_response
does not clamp the multiplied reward to [0,1]. -/
theorem c4_reward_exceeds_one :
    1 < (evaluate_response long_response "mathematics" Difficulty.HARD profile_low).1 := by
  have hcond : ¬(long_response = ""
      ∨ (["q", "quit", "exit"].contains (pyLower (pyStrip long_response))) = true) := by
    decide
  have hlen : (pyStrip long_response).length = 120 := by decide
  have himp : profile_low.improvement_areas.contains "mathematics" = true := rfl
  have hval : (evaluate_response long_response "mathematics"
      Difficulty.HARD profile_low).1 = 36/25 := by
    simp only [evaluate_response, if_neg hcond, hlen, himp, if_true,
      base_reward_of_length, difficulty_multiplier]
    norm_num
  rw [hval]
  norm_num

/-- C4 amended: the evaluated reward always lies in [0, 1.44]; the lower bound
0 holds and the upper bound is 36/25 = 1.44 (reached by the counterexample),
not 1 — no clamp to [0,1] is applied after the multipliers. -/
theorem c4_reward_range (s topic : String) (d : Difficulty) (profile : StudentProfile) :
    0 ≤ (evaluate_response s topic d profile).1
    ∧ (evaluate_response s topic d profile).1 ≤ 36/25 := by
  have hb : 1/10 ≤ base_reward_of_length (pyStrip s).length
      ∧ base_reward_of_length (pyStrip s).length ≤ 1 := by
    simp only [base_reward_of_length]
    split_ifs <;> norm_num
  obtain ⟨hba, hbb⟩ := hb
  simp only [evaluate_response]
  split_ifs with h1 h2
  · norm_num
  · cases d <;> refine ⟨?_, ?_⟩ <;> simp only [difficulty_multiplier] <;>
      nlinarith [hba, hbb]
  · cases d <;> refine ⟨?_, ?_⟩ <;> simp only [difficulty_multiplier] <;>
      nlinarith [hba, hbb]

/-- A lookup in a dict whose values all satisfy bounds, with a default that
satisfies them too, satisfies the bounds. -/
lemma dictGet_bounds {l : List (String × ℚ)} {lo hi d : ℚ}
    (h : ∀ x ∈ l, lo ≤ x.2 ∧ x.2 ≤ hi) (hd : lo ≤ d ∧ d ≤ hi) (k : String) :
    lo ≤ dictGet l k d ∧ dictGet l k d ≤ hi := by
  induction l with
  | nil => exact hd
  | cons a rest ih =>
    obtain ⟨k₂, v⟩ := a
    simp only [dictGet]
    split_ifs
    · exact h (k₂, v) (List.mem_cons_self _ _)
    · exact ih fun x hx => h x (List.mem_cons_of_mem _ hx)

/-- Every entry of a dict after a write is either the written value or an
entry of the original dict. -/
lemma dictSet_mem {l : List (String × ℚ)} {k : String} {v : ℚ} {x : String × ℚ}
    (hx : x ∈ dictSet l k v) : x.2 = v ∨ x ∈ l := by
  induction l with
  | nil =>
    simp only [dictSet, List.mem_singleton] at hx
    exact Or.inl (by rw [hx])
  | cons a rest ih =>
    obtain ⟨k₂, v₂⟩ := a
    simp only [dictSet] at hx
    split_ifs at hx
    · rcases List.mem_cons.mp hx with h | h
      · exact Or.inl (by rw [h])
      · exact Or.inr (List.mem_cons_of_mem _ h)
    · rcases List.mem_cons.mp hx with h | h
      · exact Or.inr (by rw [h]; exact List.mem_cons_self _ _)
      · rcases ih h with h₂ | h₂
        · exact Or.inl h₂
        · exact Or.inr (List.mem_cons_of_mem _ h₂)

/-- C2: for profiles whose overall, per-topic and per-difficulty performance
values lie in [0,1] and whose engagement lies in [0.1,1], an update with any
response_quality in [0,1] keeps overall, per-topic and per-difficulty
performance in [0,1] and engagement in [0.1,1]. -/
theorem c2_update_preserves_bounds (topic difficulty : String) (q : ℚ)
    (profile : StudentProfile)
    (hop : 0 ≤ profile.overall_performance ∧ profile.overall_performance ≤ 1)
    (htp : ∀ x ∈ profile.topic_performance, 0 ≤ x.2 ∧ x.2 ≤ 1)
    (hdp : ∀ x ∈ profile.difficulty_performance, 0 ≤ x.2 ∧ x.2 ≤ 1)
    (hes : 1/10 ≤ profile.engagement_score ∧ profile.engagement_score ≤ 1)
    (hq : 0 ≤ q ∧ q ≤ 1) :
    (0 ≤ (update_student_performance topic difficulty q profile).overall_performance
      ∧ (update_student_performance topic difficulty q profile).overall_performance ≤ 1)
    ∧ (∀ x ∈ (update_student_performance topic difficulty q profile).topic_performance,
        0 ≤ x.2 ∧ x.2 ≤ 1)
    ∧ (∀ x ∈ (update_student_performance topic difficulty q profile).difficulty_performance,
        0 ≤ x.2 ∧ x.2 ≤ 1)
    ∧ (1/10 ≤ (update_student_performance topic difficulty q profile).engagement_score
      ∧ (update_student_performance topic difficulty q profile).engagement_score ≤ 1) := by
  have hop₁ := hop.1
  have hop₂ := hop.2
  have hq₁ := hq.1
  have hq₂ := hq.2
  have htopic := dictGet_bounds (d := 1/2) htp (by norm_num) topic
  have hdiff := dictGet_bounds (d := 1/2) hdp (by norm_num) difficulty
  have hoverall : (update_student_performance topic difficulty q profile).overall_performance
      = profile.overall_performance * (9/10) + q * (1/10) := rfl
  have htpeq : (update_student_performance topic difficulty q profile).topic_performance
      = dictSet profile.topic_performance topic
          (dictGet profile.topic_performance topic (1/2) * (4/5) + q * (1/5)) := rfl
  have hdpeq : (update_student_performance topic difficulty q profile).difficulty_performance
      = dictSet profile.difficulty_performance difficulty
          (dictGet profile.difficulty_performance difficulty (1/2) * (4/5) + q * (1/5)) := rfl
  have heseq : (update_student_performance topic difficulty q profile).engagement_score
      = max (1/10) (min 1 (profile.engagement_score + (q - 1/2) * (1/10))) := rfl
  refine ⟨⟨?_, ?_⟩, ?_, ?_, ?_, ?_⟩
  · rw [hoverall]; nlinarith
  · rw [hoverall]; nlinarith
  · intro x hx
    rw [htpeq] at hx
    rcases dictSet_mem hx with h | h
    · rw [h]
      constructor <;> nlinarith [htopic.1, htopic.2]
    · exact htp x h
  · intro x hx
    rw [hdpeq] at hx
    rcases dictSet_mem hx with h | h
    · rw [h]
      constructor <;> nlinarith [hdiff.1, hdiff.2]
    · exact hdp x h
  · rw [heseq]
    exact le_max_left _ _
  · rw [heseq]
    exact max_le (by norm_num) (min_le_left _ _)

/-- C2 witness: the bounds hold for a concrete in-range update of the
scenario profile. -/
theorem c2_update_preserves_bounds_witness :
    0 ≤ (update_student_performance "math" "easy" (1/2)
        scenario_profile).overall_performance
    ∧ (update_student_performance "math" "easy" (1/2)
        scenario_profile).overall_performance ≤ 1 :=
  (c2_update_preserves_bounds "math" "easy" (1/2) scenario_profile
    (by norm_num [scenario_profile])
    (by intro x hx; simp [scenario_profile] at hx; rw [hx]; norm_num)
    (by intro x hx; simp [scenario_profile] at hx)
    (by norm_num [scenario_profile])
    (by norm_num)).1

end Tutorial
